import Mathlib

/-!
Verification of the state-synchronization core of an internet-radio web
client. The Rust sources embedded here are:

* `src/update_from_diff.rs` — the `UpdateFromDiff` trait and its blanket
  implementation `impl<T> UpdateFromDiff<Option<T>> for T`;
* `src/fast_eq_rc.rs` — `FastEqRc`, a reference-counted wrapper whose
  equality compares pointers (`Rc::ptr_eq`), plus its `UpdateFromDiff`
  implementation;
* `src/main.rs` — `PlayerState`, its `update_from_diff`, the
  `ConnectionState` enum with `handle_closed`, and the connection
  coroutine of `Root` (the reconnect loop).

Rc pointer identity is modelled with an explicit allocator counter: every
allocation (`Rc::new`) consumes the current counter value as the fresh
pointer and bumps the counter. Pointer equality is equality of these
counter values; freshness of an allocation relative to the live wrappers
is expressed by the hypothesis that the live wrappers' pointers are below
the counter.

The external crate `rradio_messages` (the types `PipelineState`,
`Station`, `TrackTags`, `Duration`, `PingTimes`, `Command` and the wire
codec) is not part of this repository; those types are abstract type
parameters here, and the wire decode step is an input of the model (a
received binary frame carries its decode outcome).
-/

/-- `FastEqRc<T>` from `src/fast_eq_rc.rs`: an `Rc<T>` modelled as the
pointer (an allocator tick) paired with the pointed-to value. -/
structure FastEqRc (T : Type) where
  ptr : Nat
  val : T
deriving DecidableEq, Repr

/-- `FastEqRc::new` (`src/fast_eq_rc.rs` lines 5–9): `Rc::new(value)`
allocates, so the model consumes the allocator counter as the fresh
pointer and returns the bumped counter. -/
def FastEqRc.new {T : Type} (value : T) (alloc : Nat) : FastEqRc T × Nat :=
  (⟨alloc, value⟩, alloc + 1)

/-- `Clone for FastEqRc` (`src/fast_eq_rc.rs` lines 17–21): cloning the
inner `Rc` yields a second handle to the same allocation — same pointer,
same value, no allocation. -/
def FastEqRc.clone {T : Type} (self : FastEqRc T) : FastEqRc T :=
  ⟨self.ptr, self.val⟩

/-- `PartialEq for FastEqRc` (`src/fast_eq_rc.rs` lines 43–47):
`Rc::ptr_eq`, i.e. comparison of pointers, never of contents. -/
def FastEqRc.eq {T : Type} (self other : FastEqRc T) : Bool :=
  self.ptr == other.ptr

/-- The blanket `impl<T> UpdateFromDiff<Option<T>> for T`
(`src/update_from_diff.rs` lines 5–11): overwrite on `Some`, keep on
`None`. -/
def UpdateFromDiff.update_from_diff {T : Type} (self : T) (diff : Option T) : T :=
  match diff with
  | some newValue => newValue
  | none => self

/-- `impl<T> UpdateFromDiff<Option<T>> for FastEqRc<T>`
(`src/fast_eq_rc.rs` lines 49–55): on `Some`, replace the whole wrapper
with `FastEqRc::new(new_value)` (a fresh allocation); on `None`, keep the
wrapper untouched (same pointer). -/
def FastEqRc.update_from_diff {T : Type} (self : FastEqRc T) (diff : Option T)
    (alloc : Nat) : FastEqRc T × Nat :=
  match diff with
  | some newValue => FastEqRc.new newValue alloc
  | none => (self, alloc)

/-- `PlayerState` from `src/main.rs` lines 61–74, parameterized by the
`rradio_messages` types it mentions (`Pip` = `PipelineState`,
`St` = `Option<Station>` content is `Option St`, `Tg`, `Dur`, `Ping`). -/
structure PlayerState (Pip St Tg Dur Ping : Type) where
  pipeline_state : Pip
  current_station : FastEqRc (Option St)
  pause_before_playing : Option Dur
  current_track_index : Nat
  current_track_tags : FastEqRc (Option Tg)
  is_muted : Bool
  volume : Int
  buffering : Nat
  track_duration : Option Dur
  track_position : Option Dur
  ping_times : Ping
deriving DecidableEq, Repr

/-- `rradio_messages::PlayerStateDiff`: the diff type paired with
`PlayerState`. Its field types are forced by the `update_from_diff` calls
in `src/main.rs` lines 92–104: each field goes through an
`UpdateFromDiff<Option<_>>` implementation, so each diff field is the
`Option` of the corresponding state field's content (for the two
`FastEqRc`-wrapped fields, the `Option` of the wrapped content). -/
structure PlayerStateDiff (Pip St Tg Dur Ping : Type) where
  pipeline_state : Option Pip
  current_station : Option (Option St)
  pause_before_playing : Option (Option Dur)
  current_track_index : Option Nat
  current_track_tags : Option (Option Tg)
  is_muted : Option Bool
  volume : Option Int
  buffering : Option Nat
  track_duration : Option (Option Dur)
  track_position : Option (Option Dur)
  ping_times : Option Ping
deriving DecidableEq, Repr

/-- The all-`None` diff: every field says "no change". -/
def PlayerStateDiff.empty {Pip St Tg Dur Ping : Type} :
    PlayerStateDiff Pip St Tg Dur Ping :=
  ⟨none, none, none, none, none, none, none, none, none, none, none⟩

/-- `PlayerState::update_from_diff` (`src/main.rs` lines 76–106): each
field is updated from its diff field; the two `FastEqRc` fields thread
the allocator (station first, tags second, following source order). -/
def PlayerState.update_from_diff {Pip St Tg Dur Ping : Type}
    (self : PlayerState Pip St Tg Dur Ping)
    (diff : PlayerStateDiff Pip St Tg Dur Ping)
    (alloc : Nat) : PlayerState Pip St Tg Dur Ping × Nat :=
  let pipeline_state := UpdateFromDiff.update_from_diff self.pipeline_state diff.pipeline_state
  let (current_station, alloc) :=
    FastEqRc.update_from_diff self.current_station diff.current_station alloc
  let pause_before_playing :=
    UpdateFromDiff.update_from_diff self.pause_before_playing diff.pause_before_playing
  let current_track_index :=
    UpdateFromDiff.update_from_diff self.current_track_index diff.current_track_index
  let (current_track_tags, alloc) :=
    FastEqRc.update_from_diff self.current_track_tags diff.current_track_tags alloc
  let is_muted := UpdateFromDiff.update_from_diff self.is_muted diff.is_muted
  let volume := UpdateFromDiff.update_from_diff self.volume diff.volume
  let buffering := UpdateFromDiff.update_from_diff self.buffering diff.buffering
  let track_duration := UpdateFromDiff.update_from_diff self.track_duration diff.track_duration
  let track_position := UpdateFromDiff.update_from_diff self.track_position diff.track_position
  let ping_times := UpdateFromDiff.update_from_diff self.ping_times diff.ping_times
  (⟨pipeline_state, current_station, pause_before_playing, current_track_index,
    current_track_tags, is_muted, volume, buffering, track_duration,
    track_position, ping_times⟩, alloc)

/-- C1: applying the empty diff (every field `None`) via
`update_from_diff` returns the state unchanged in every field, performs
no allocation, and in particular leaves both change-identity-wrapped
fields (`current_station`, `current_track_tags`) pointer-identical
(`Rc::ptr_eq`, i.e. `FastEqRc.eq`) to the originals. -/
theorem update_from_diff_empty_diff {Pip St Tg Dur Ping : Type}
    (s : PlayerState Pip St Tg Dur Ping) (alloc : Nat) :
    s.update_from_diff PlayerStateDiff.empty alloc = (s, alloc) ∧
    FastEqRc.eq (s.update_from_diff PlayerStateDiff.empty alloc).1.current_station
      s.current_station = true ∧
    FastEqRc.eq (s.update_from_diff PlayerStateDiff.empty alloc).1.current_track_tags
      s.current_track_tags = true := by
  refine ⟨rfl, ?_, ?_⟩ <;>
    simp [PlayerState.update_from_diff, PlayerStateDiff.empty,
      FastEqRc.update_from_diff, UpdateFromDiff.update_from_diff, FastEqRc.eq]

/-- Value-equality of player states: every field equal as a value, with
the two `FastEqRc`-wrapped fields compared on their contents only (the
pointers are allowed to differ). -/
def PlayerState.valueEq {Pip St Tg Dur Ping : Type}
    (a b : PlayerState Pip St Tg Dur Ping) : Prop :=
  a.pipeline_state = b.pipeline_state ∧
  a.current_station.val = b.current_station.val ∧
  a.pause_before_playing = b.pause_before_playing ∧
  a.current_track_index = b.current_track_index ∧
  a.current_track_tags.val = b.current_track_tags.val ∧
  a.is_muted = b.is_muted ∧
  a.volume = b.volume ∧
  a.buffering = b.buffering ∧
  a.track_duration = b.track_duration ∧
  a.track_position = b.track_position ∧
  a.ping_times = b.ping_times

/-- C2: field-wise characterization of `PlayerState::update_from_diff`.
For every field: if the diff carries `some x`, the resulting field is
exactly `x` (for the two wrapped fields, the resulting wrapper holds `x`
and is not pointer-equal to the old wrapper, the allocation being fresh);
if the diff carries `none`, the field is returned exactly as it was,
pointer included. -/
theorem update_from_diff_replacement {Pip St Tg Dur Ping : Type}
    (s : PlayerState Pip St Tg Dur Ping)
    (d : PlayerStateDiff Pip St Tg Dur Ping) (alloc : Nat)
    (hst : s.current_station.ptr < alloc)
    (htg : s.current_track_tags.ptr < alloc) :
    (∀ x, d.pipeline_state = some x →
      ((s.update_from_diff d alloc).1).pipeline_state = x) ∧
    (d.pipeline_state = none →
      ((s.update_from_diff d alloc).1).pipeline_state = s.pipeline_state) ∧
    (∀ x, d.current_station = some x →
      ((s.update_from_diff d alloc).1).current_station.val = x ∧
      FastEqRc.eq ((s.update_from_diff d alloc).1).current_station
        s.current_station = false) ∧
    (d.current_station = none →
      ((s.update_from_diff d alloc).1).current_station = s.current_station) ∧
    (∀ x, d.pause_before_playing = some x →
      ((s.update_from_diff d alloc).1).pause_before_playing = x) ∧
    (d.pause_before_playing = none →
      ((s.update_from_diff d alloc).1).pause_before_playing
        = s.pause_before_playing) ∧
    (∀ x, d.current_track_index = some x →
      ((s.update_from_diff d alloc).1).current_track_index = x) ∧
    (d.current_track_index = none →
      ((s.update_from_diff d alloc).1).current_track_index
        = s.current_track_index) ∧
    (∀ x, d.current_track_tags = some x →
      ((s.update_from_diff d alloc).1).current_track_tags.val = x ∧
      FastEqRc.eq ((s.update_from_diff d alloc).1).current_track_tags
        s.current_track_tags = false) ∧
    (d.current_track_tags = none →
      ((s.update_from_diff d alloc).1).current_track_tags
        = s.current_track_tags) ∧
    (∀ x, d.is_muted = some x →
      ((s.update_from_diff d alloc).1).is_muted = x) ∧
    (d.is_muted = none →
      ((s.update_from_diff d alloc).1).is_muted = s.is_muted) ∧
    (∀ x, d.volume = some x →
      ((s.update_from_diff d alloc).1).volume = x) ∧
    (d.volume = none →
      ((s.update_from_diff d alloc).1).volume = s.volume) ∧
    (∀ x, d.buffering = some x →
      ((s.update_from_diff d alloc).1).buffering = x) ∧
    (d.buffering = none →
      ((s.update_from_diff d alloc).1).buffering = s.buffering) ∧
    (∀ x, d.track_duration = some x →
      ((s.update_from_diff d alloc).1).track_duration = x) ∧
    (d.track_duration = none →
      ((s.update_from_diff d alloc).1).track_duration = s.track_duration) ∧
    (∀ x, d.track_position = some x →
      ((s.update_from_diff d alloc).1).track_position = x) ∧
    (d.track_position = none →
      ((s.update_from_diff d alloc).1).track_position = s.track_position) ∧
    (∀ x, d.ping_times = some x →
      ((s.update_from_diff d alloc).1).ping_times = x) ∧
    (d.ping_times = none →
      ((s.update_from_diff d alloc).1).ping_times = s.ping_times) := by
  obtain ⟨dp, dst, dpb, dci, dtg, dm, dv, db, dtd, dtp, dpt⟩ := d
  cases dst <;> cases dtg <;>
    refine ⟨?_, ?_, ?_, ?_, ?_, ?_, ?_, ?_, ?_, ?_, ?_, ?_, ?_, ?_, ?_, ?_,
      ?_, ?_, ?_, ?_, ?_, ?_⟩ <;>
    intros <;>
    simp_all [PlayerState.update_from_diff, FastEqRc.update_from_diff,
      FastEqRc.new, FastEqRc.eq, UpdateFromDiff.update_from_diff] <;>
    omega

/-- A concrete starting state over `Nat` instantiations of the external
types: station wrapper at pointer 0, tags wrapper at pointer 1,
volume 10; the allocator counter is 2 (both live pointers are below
it). -/
def psA : PlayerState Nat Nat Nat Nat Nat :=
  ⟨0, ⟨0, some 1⟩, none, 0, ⟨1, none⟩, false, 10, 0, none, none, 0⟩

/-- A diff that sets only the volume (to 12): every other field `none`. -/
def dVol : PlayerStateDiff Nat Nat Nat Nat Nat :=
  ⟨none, none, none, none, none, none, some 12, none, none, none, none⟩

/-- Witness for C2, instantiating the spec's own scenario: starting from
`psA` (station wrapper `A`, volume 10), a diff that sets only the volume
to 12 yields a state whose station wrapper is exactly the old one
(pointer included) and whose volume is 12. -/
theorem update_from_diff_replacement_witness :
    ((psA.update_from_diff dVol 2).1).current_station = psA.current_station ∧
    ((psA.update_from_diff dVol 2).1).volume = 12 := by
  have h := update_from_diff_replacement psA dVol 2 (by decide) (by decide)
  exact ⟨h.2.2.2.1 rfl, h.2.2.2.2.2.2.2.2.2.2.2.2.1 12 rfl⟩

/-- C3: the identity law of `FastEqRc`. For every wrapper `w`,
`w.clone() == w` (cloning shares the allocation, and equality is
`Rc::ptr_eq`); and two wrappers constructed by two separate calls to
`FastEqRc::new` — the second allocating after the first — are never
equal, even when built from the very same value. -/
theorem fast_eq_rc_identity_law {T : Type} (w : FastEqRc T) (v1 v2 : T)
    (alloc : Nat) :
    FastEqRc.eq (FastEqRc.clone w) w = true ∧
    FastEqRc.eq (FastEqRc.new v1 alloc).1
      (FastEqRc.new v2 (FastEqRc.new v1 alloc).2).1 = false := by
  simp [FastEqRc.eq, FastEqRc.clone, FastEqRc.new]

/-- C4: applying the same diff twice to the same starting state (the
second application running with the allocator left by the first) yields
states equal in every field by value; but for each wrapped field the
diff replaces, the two applications produce wrappers that are not
pointer-equal to each other — each application allocates afresh. -/
theorem update_from_diff_twice {Pip St Tg Dur Ping : Type}
    (s : PlayerState Pip St Tg Dur Ping)
    (d : PlayerStateDiff Pip St Tg Dur Ping) (a0 : Nat) :
    PlayerState.valueEq (s.update_from_diff d a0).1
      (s.update_from_diff d (s.update_from_diff d a0).2).1 ∧
    (∀ x, d.current_station = some x →
      FastEqRc.eq ((s.update_from_diff d a0).1).current_station
        ((s.update_from_diff d (s.update_from_diff d a0).2).1).current_station
        = false) ∧
    (∀ x, d.current_track_tags = some x →
      FastEqRc.eq ((s.update_from_diff d a0).1).current_track_tags
        ((s.update_from_diff d (s.update_from_diff d a0).2).1).current_track_tags
        = false) := by
  obtain ⟨dp, dst, dpb, dci, dtg, dm, dv, db, dtd, dtp, dpt⟩ := d
  cases dst <;> cases dtg <;>
    refine ⟨?_, ?_, ?_⟩ <;>
    intros <;>
    simp_all [PlayerState.update_from_diff, PlayerState.valueEq,
      FastEqRc.update_from_diff, FastEqRc.new, FastEqRc.eq,
      UpdateFromDiff.update_from_diff] <;>
    omega

/-- A diff that replaces only the station wrapper's contents. -/
def dSt : PlayerStateDiff Nat Nat Nat Nat Nat :=
  ⟨none, some (some 7), none, none, none, none, none, none, none, none, none⟩

/-- Witness for C4: starting from `psA` and applying `dSt` twice in
sequence, the two resulting states are value-equal but their station
wrappers are not pointer-equal to each other. -/
theorem update_from_diff_twice_witness :
    PlayerState.valueEq (psA.update_from_diff dSt 2).1
      (psA.update_from_diff dSt (psA.update_from_diff dSt 2).2).1 ∧
    FastEqRc.eq ((psA.update_from_diff dSt 2).1).current_station
      ((psA.update_from_diff dSt (psA.update_from_diff dSt 2).2).1).current_station
      = false := by
  have h := update_from_diff_twice psA dSt 2
  exact ⟨h.1, h.2.1 (some 7) rfl⟩

/-- `ConnectionState` from `src/main.rs` lines 40–46. -/
inductive ConnectionState where
  | connecting
  | connected
  | disconnected
  | connectionError (msg : String)
deriving DecidableEq, Repr

/-- The phase of the connection coroutine of `Root` (`src/main.rs` lines
164–284): awaiting `WebSocket::open`, inside the connected message loop,
inside the backoff sleep, or finished (the future has completed — with
`Ok(())` after an orderly close, or with an error after a first-attempt
failure). -/
inductive Phase where
  | opening
  | connected
  | sleeping
  | doneOk
  | doneErr (msg : String)
deriving DecidableEq, Repr

/-- Whether the coroutine future has completed (after completion dioxus
drops the future, and with it the command channel's receiver). -/
def Phase.isDone : Phase → Bool
  | .doneOk => true
  | .doneErr _ => true
  | _ => false

/-- `gloo_net::websocket::WebSocketError` as the connection loop
distinguishes it (`src/main.rs` lines 227–235): an orderly
`ConnectionClose`, or any other error. -/
inductive WsError where
  | connectionClose
  | other (msg : String)

/-- `rradio_messages::Event` as matched in `src/main.rs` lines 243–256:
a player-state diff, or a log message (only errors are carried). -/
inductive RadioEvent (Diff : Type) where
  | playerStateChanged (diff : Diff)
  | logMessageError (msg : String)

/-- A received `gloo_net::websocket::Message` (`src/main.rs` lines
236–258): text-framed, or binary-framed. The wire codec lives in the
external `rradio_messages` crate, so a binary frame carries its decode
outcome directly: `Except.error` when `Event::decode` fails,
`Except.ok` with the decoded `rradio_messages::Event` otherwise. -/
inductive WsMessage (Diff : Type) where
  | text (msg : String)
  | bytes (decoded : Except String (RadioEvent Diff))

/-- One external stimulus to the connection coroutine: the UI sending a
command into the coroutine channel, the resolution of the pending
`WebSocket::open`, the stream `select` yielding the next queued command
or the next websocket event, or the backoff sleep elapsing. -/
inductive Env (Diff Cmd : Type) where
  | userCommand (c : Cmd)
  | openOk
  | openErr (msg : String)
  | pollCommand
  | wsEvent (e : Except WsError (WsMessage Diff))
  | sleepDone

/-- `anyhow` context of `src/main.rs` lines 195–197 (`{:#}` chains the
context and the cause). -/
def openErrMsg (m : String) : String :=
  "Failed to open websocket: " ++ m

/-- `anyhow` context of `src/main.rs` lines 231–235. -/
def recvErrMsg (m : String) : String :=
  "Failed to receive websocket message: " ++ m

/-- `anyhow` context of `src/main.rs` lines 240–241. -/
def decodeErrMsg (m : String) : String :=
  "Failed to decode Event: " ++ m

/-- The observable state of one run of the connection coroutine: its
phase, the `is_first_connection_attempt` flag (`src/main.rs` line 186),
the buffered contents of the coroutine's unbounded command channel, the
shared player state with the allocator counter, the commands transmitted
on the websocket so far, and the sequence of values the coroutine has
stored into the `ConnectionState` `use_state` (most recent last). -/
structure Sess (Pip St Tg Dur Ping Cmd : Type) where
  phase : Phase
  isFirst : Bool
  queue : List Cmd
  ps : PlayerState Pip St Tg Dur Ping
  alloc : Nat
  sent : List Cmd
  trace : List ConnectionState
deriving DecidableEq, Repr

/-- The tail of the reconnect loop (`src/main.rs` lines 267–279): a
failed connection attempt (open failure or body error) reaches
`match result` with an `Err`. On the first attempt the error is
returned, completing the future, and `handle_closed` (lines 49–59)
stores `ConnectionError`; otherwise `ConnectionError` is stored and the
loop sleeps before retrying. -/
def Sess.failConnection {Pip St Tg Dur Ping Cmd : Type}
    (s : Sess Pip St Tg Dur Ping Cmd) (msg : String) :
    Sess Pip St Tg Dur Ping Cmd :=
  if s.isFirst then
    { s with
      phase := .doneErr msg
      trace := s.trace ++ [ConnectionState.connectionError msg] }
  else
    { s with
      phase := .sleeping
      trace := s.trace ++ [ConnectionState.connectionError msg] }

/-- One step of the connection coroutine of `Root` (`src/main.rs` lines
164–284) under one external stimulus.

* `userCommand`: `Coroutine::send` pushes onto the unbounded channel;
  once the future has completed the receiver is dropped and the send is
  discarded.
* `openOk`: `WebSocket::open` succeeded — clear
  `is_first_connection_attempt` (line 200) and store `Connected`
  (line 201).
* `openErr`: `WebSocket::open` failed (lines 190–198) — the error
  reaches the loop tail (`Sess.failConnection`).
* `pollCommand` (lines 212–226): while connected, the `select` yields the
  next buffered command, which is encoded and sent on the websocket
  (encoding into a `Vec` and the mocked transport's `send` are
  infallible here).
* `wsEvent` (lines 227–259): `ConnectionClose` breaks the loop, so the
  body returns `Ok(())`, the future completes and `handle_closed` stores
  `Disconnected`; any other websocket error reaches the loop tail; a
  text frame is only logged; a binary frame whose decode fails reaches
  the loop tail; a decoded `PlayerStateChanged` applies
  `update_from_diff` to the shared player state; a decoded log message
  is only logged.
* `sleepDone` (line 278): the backoff sleep elapsed, the loop restarts
  with a new open attempt.

A stimulus that does not apply to the current phase leaves the state
unchanged. -/
def step {Pip St Tg Dur Ping Cmd : Type}
    (s : Sess Pip St Tg Dur Ping Cmd)
    (e : Env (PlayerStateDiff Pip St Tg Dur Ping) Cmd) :
    Sess Pip St Tg Dur Ping Cmd :=
  match e with
  | .userCommand c =>
      if s.phase.isDone then s else { s with queue := s.queue ++ [c] }
  | .openOk =>
      match s.phase with
      | .opening =>
          { s with
            phase := .connected
            isFirst := false
            trace := s.trace ++ [ConnectionState.connected] }
      | _ => s
  | .openErr m =>
      match s.phase with
      | .opening => s.failConnection (openErrMsg m)
      | _ => s
  | .pollCommand =>
      match s.phase, s.queue with
      | .connected, c :: q => { s with queue := q, sent := s.sent ++ [c] }
      | _, _ => s
  | .wsEvent ev =>
      match s.phase with
      | .connected =>
          match ev with
          | .error .connectionClose =>
              { s with
                phase := .doneOk
                trace := s.trace ++ [ConnectionState.disconnected] }
          | .error (.other m) => s.failConnection (recvErrMsg m)
          | .ok (.text _) => s
          | .ok (.bytes (.error m)) => s.failConnection (decodeErrMsg m)
          | .ok (.bytes (.ok (.playerStateChanged d))) =>
              let (ps, alloc) := s.ps.update_from_diff d s.alloc
              { s with ps := ps, alloc := alloc }
          | .ok (.bytes (.ok (.logMessageError _))) => s
      | _ => s
  | .sleepDone =>
      match s.phase with
      | .sleeping => { s with phase := .opening }
      | _ => s

/-- Run the coroutine model over a whole script of stimuli. -/
def runScript {Pip St Tg Dur Ping Cmd : Type}
    (s : Sess Pip St Tg Dur Ping Cmd)
    (es : List (Env (PlayerStateDiff Pip St Tg Dur Ping) Cmd)) :
    Sess Pip St Tg Dur Ping Cmd :=
  es.foldl step s

/-- The coroutine's state when it first starts: about to open the first
connection, `is_first_connection_attempt` set, nothing buffered, nothing
sent, and `Connecting` as the initial `use_state` value (`src/main.rs`
line 161). -/
def Sess.start {Pip St Tg Dur Ping Cmd : Type}
    (ps : PlayerState Pip St Tg Dur Ping) (alloc : Nat) :
    Sess Pip St Tg Dur Ping Cmd :=
  ⟨.opening, true, [], ps, alloc, [], [ConnectionState.connecting]⟩

/-- Once the coroutine future has completed, no stimulus changes
anything. -/
theorem step_done {Pip St Tg Dur Ping Cmd : Type}
    (s : Sess Pip St Tg Dur Ping Cmd)
    (e : Env (PlayerStateDiff Pip St Tg Dur Ping) Cmd)
    (h : s.phase.isDone = true) : step s e = s := by
  obtain ⟨ph, fi, q, ps, al, snt, tr⟩ := s
  cases ph <;> simp [Phase.isDone] at h <;>
    cases e <;> simp [step, Phase.isDone]

/-- Once the coroutine future has completed, no script of stimuli
changes anything. -/
theorem runScript_done {Pip St Tg Dur Ping Cmd : Type}
    (s : Sess Pip St Tg Dur Ping Cmd)
    (es : List (Env (PlayerStateDiff Pip St Tg Dur Ping) Cmd))
    (h : s.phase.isDone = true) : runScript s es = s := by
  induction es with
  | nil => rfl
  | cons e es ih =>
      show runScript (step s e) es = s
      rw [step_done s e h, ih]

/-- C6: a channel error during the first connection attempt — an open
failure while `is_first_connection_attempt` is still set, i.e. before
any connection of the session has succeeded — completes the coroutine
future with exactly that error (the open error under its `anyhow`
context), stores it as the final `ConnectionError`, and no stimulus
whatsoever (in particular no retry) changes anything afterwards. -/
theorem first_attempt_failure_terminal {Pip St Tg Dur Ping Cmd : Type}
    (s : Sess Pip St Tg Dur Ping Cmd) (m : String)
    (h1 : s.phase = .opening) (h2 : s.isFirst = true) :
    (step s (.openErr m)).phase = .doneErr (openErrMsg m) ∧
    (step s (.openErr m)).trace
      = s.trace ++ [ConnectionState.connectionError (openErrMsg m)] ∧
    ∀ es, runScript (step s (.openErr m)) es = step s (.openErr m) := by
  refine ⟨?_, ?_, fun es => runScript_done _ es ?_⟩ <;>
    simp [step, h1, h2, Sess.failConnection, Phase.isDone]

/-- Witness for C6: the session's very first open attempt fails with
"refused"; the future completes with that error surfaced, and the stored
status is exactly the corresponding `ConnectionError`. -/
theorem first_attempt_failure_terminal_witness :
    (step (Sess.start psA 2 : Sess Nat Nat Nat Nat Nat Nat)
      (.openErr "refused")).phase = .doneErr (openErrMsg "refused") ∧
    (step (Sess.start psA 2 : Sess Nat Nat Nat Nat Nat Nat)
      (.openErr "refused")).trace
      = [ConnectionState.connecting,
         ConnectionState.connectionError (openErrMsg "refused")] := by
  have h := first_attempt_failure_terminal
    (Sess.start psA 2 : Sess Nat Nat Nat Nat Nat Nat) "refused" rfl rfl
  exact ⟨h.1, h.2.1⟩

/-- C7: after at least one successful connection
(`is_first_connection_attempt` cleared), a channel error while connected
immediately stores `ConnectionError` with the error's message and puts
the coroutine into the backoff sleep; when the fixed delay elapses the
loop makes exactly one more open attempt (no status change during the
sleep), and the cycle repeats: a further open failure returns to the
backoff sleep with a new `ConnectionError`, while an open success
returns to `Connected`. -/
theorem post_success_failure_retries {Pip St Tg Dur Ping Cmd : Type}
    (s : Sess Pip St Tg Dur Ping Cmd) (m m2 : String)
    (h1 : s.phase = .connected) (h2 : s.isFirst = false) :
    (step s (.wsEvent (.error (.other m)))).phase = .sleeping ∧
    (step s (.wsEvent (.error (.other m)))).trace
      = s.trace ++ [ConnectionState.connectionError (recvErrMsg m)] ∧
    (step (step s (.wsEvent (.error (.other m)))) .sleepDone).phase
      = .opening ∧
    (step (step s (.wsEvent (.error (.other m)))) .sleepDone).trace
      = s.trace ++ [ConnectionState.connectionError (recvErrMsg m)] ∧
    (step (step (step s (.wsEvent (.error (.other m)))) .sleepDone)
      .openOk).phase = .connected ∧
    (step (step (step s (.wsEvent (.error (.other m)))) .sleepDone)
      (.openErr m2)).phase = .sleeping := by
  refine ⟨?_, ?_, ?_, ?_, ?_, ?_⟩ <;>
    simp [step, h1, h2, Sess.failConnection, Phase.isDone]

/-- A session that has already connected once: connected phase,
`is_first_connection_attempt` cleared, nothing queued or sent. -/
def sessConn : Sess Nat Nat Nat Nat Nat Nat :=
  ⟨.connected, false, [], psA, 2, [],
    [ConnectionState.connecting, ConnectionState.connected]⟩

/-- Witness for C7: a connected session hit by a websocket error goes to
the backoff sleep, then (once the delay elapses) makes exactly one more
open attempt, which on success reaches `Connected` again. -/
theorem post_success_failure_retries_witness :
    (step sessConn (.wsEvent (.error (.other "boom")))).phase = .sleeping ∧
    (step (step sessConn (.wsEvent (.error (.other "boom"))))
      .sleepDone).phase = .opening ∧
    (step (step (step sessConn (.wsEvent (.error (.other "boom"))))
      .sleepDone) .openOk).phase = .connected :=
  ⟨(post_success_failure_retries sessConn "boom" "x" rfl rfl).1,
   (post_success_failure_retries sessConn "boom" "x" rfl rfl).2.2.1,
   (post_success_failure_retries sessConn "boom" "x" rfl rfl).2.2.2.2.1⟩

/-- C8: an orderly channel closure while connected breaks the message
loop, the body returns `Ok(())`, the completed future's `handle_closed`
stores `Disconnected`, nothing further is sent, and the state is
terminal: no script of further stimuli (in particular no reconnection)
changes anything. -/
theorem orderly_close_disconnects {Pip St Tg Dur Ping Cmd : Type}
    (s : Sess Pip St Tg Dur Ping Cmd) (h : s.phase = .connected) :
    (step s (.wsEvent (.error .connectionClose))).phase = .doneOk ∧
    (step s (.wsEvent (.error .connectionClose))).trace
      = s.trace ++ [ConnectionState.disconnected] ∧
    (step s (.wsEvent (.error .connectionClose))).sent = s.sent ∧
    ∀ es, runScript (step s (.wsEvent (.error .connectionClose))) es
      = step s (.wsEvent (.error .connectionClose)) := by
  refine ⟨?_, ?_, ?_, fun es => runScript_done _ es ?_⟩ <;>
    simp [step, h, Phase.isDone]

/-- Witness for C8: closing the channel of a connected session stores
`Disconnected` and the session never reconnects (a subsequent open
success stimulus is ignored). -/
theorem orderly_close_disconnects_witness :
    (step sessConn (.wsEvent (.error .connectionClose))).phase = .doneOk ∧
    runScript (step sessConn (.wsEvent (.error .connectionClose)))
      [.sleepDone, .openOk]
      = step sessConn (.wsEvent (.error .connectionClose)) := by
  have h := orderly_close_disconnects sessConn rfl
  exact ⟨h.1, h.2.2.2 _⟩

/-- C9: a binary message whose decode fails takes exactly the same path
as a transport error — both land in `Sess.failConnection`, the tail of
the reconnect loop: the current connection is abandoned, the decode
error is stored as `ConnectionError` (under its `anyhow` context), and
after the backoff delay the loop attempts to reconnect. The message is
not skipped: the phase leaves `connected`. -/
theorem decode_failure_forces_reconnect {Pip St Tg Dur Ping Cmd : Type}
    (s : Sess Pip St Tg Dur Ping Cmd) (m : String)
    (h1 : s.phase = .connected) (h2 : s.isFirst = false) :
    step s (.wsEvent (.ok (.bytes (.error m))))
      = s.failConnection (decodeErrMsg m) ∧
    step s (.wsEvent (.error (.other m)))
      = s.failConnection (recvErrMsg m) ∧
    (step s (.wsEvent (.ok (.bytes (.error m))))).phase = .sleeping ∧
    (step s (.wsEvent (.ok (.bytes (.error m))))).trace
      = s.trace ++ [ConnectionState.connectionError (decodeErrMsg m)] ∧
    (step (step s (.wsEvent (.ok (.bytes (.error m))))) .sleepDone).phase
      = .opening := by
  refine ⟨?_, ?_, ?_, ?_, ?_⟩ <;>
    simp [step, h1, h2, Sess.failConnection, Phase.isDone]

/-- Witness for C9: an undecodable frame received by a connected session
abandons the connection (backoff sleep, `ConnectionError` stored), then
retries after the delay. -/
theorem decode_failure_forces_reconnect_witness :
    (step sessConn (.wsEvent (.ok (.bytes (.error "bad frame"))))).phase
      = .sleeping ∧
    (step sessConn (.wsEvent (.ok (.bytes (.error "bad frame"))))).trace
      = [ConnectionState.connecting, ConnectionState.connected,
         ConnectionState.connectionError (decodeErrMsg "bad frame")] ∧
    (step (step sessConn (.wsEvent (.ok (.bytes (.error "bad frame")))))
      .sleepDone).phase = .opening := by
  have h := decode_failure_forces_reconnect sessConn "bad frame" rfl rfl
  exact ⟨h.2.2.1, h.2.2.2.1, h.2.2.2.2⟩

/-- C10: a text-framed websocket message received while connected is
only logged: the machine state after it is literally the state before it
— the player state untouched in every field (wrapper pointers included),
nothing stored, nothing sent, the connection kept, no reconnection. -/
theorem text_message_ignored {Pip St Tg Dur Ping Cmd : Type}
    (s : Sess Pip St Tg Dur Ping Cmd) (m : String)
    (h : s.phase = .connected) :
    step s (.wsEvent (.ok (.text m))) = s := by
  obtain ⟨ph, fi, q, ps, al, snt, tr⟩ := s
  simp only at h
  subst h
  rfl

/-- Witness for C10: a connected session receiving the text frame
"hello" is left exactly as it was. -/
theorem text_message_ignored_witness :
    step sessConn (.wsEvent (.ok (.text "hello"))) = sessConn :=
  text_message_ignored sessConn "hello" rfl

/-- A script driving a fresh session to the reconnection backoff: the
first open succeeds, then the websocket errors. -/
def backoffScript : List (Env (PlayerStateDiff Nat Nat Nat Nat Nat) Nat) :=
  [.openOk, .wsEvent (.error (.other "boom"))]

/-- Counterexample to C5 as stated: after `backoffScript` the session is
in the reconnection backoff (not `Connected`); a command issued at that
point is buffered in the coroutine's unbounded channel, and once the
backoff elapses and the reconnection succeeds, the `select` yields the
buffered command and it IS transmitted on the transport — it is queued,
not dropped. -/
theorem command_during_backoff_is_sent :
    (runScript (Sess.start psA 2 : Sess Nat Nat Nat Nat Nat Nat)
      backoffScript).phase = .sleeping ∧
    (runScript (Sess.start psA 2 : Sess Nat Nat Nat Nat Nat Nat)
      (backoffScript ++ [.userCommand 7, .sleepDone, .openOk, .pollCommand])).sent
      = [7] := by
  exact ⟨rfl, rfl⟩

/-- C5 (amended): transmission happens only while connected — any step
either leaves the transmitted list unchanged, or is the connected-phase
`select` yielding the head of the buffered command queue and sending
exactly it. A command issued after the coroutine future has completed
(`Disconnected` or terminal error) is discarded: no script of stimuli
changes anything, so nothing is ever transmitted. But a command issued
while the future is still running and not connected is NOT dropped: it
is appended to the unbounded channel's buffer (and so may be transmitted
after a later reconnection). -/
theorem command_transmission_policy {Pip St Tg Dur Ping Cmd : Type}
    (s : Sess Pip St Tg Dur Ping Cmd)
    (e : Env (PlayerStateDiff Pip St Tg Dur Ping) Cmd) (c : Cmd) :
    (s.phase.isDone = true → ∀ es, runScript s es = s) ∧
    ((step s e).sent = s.sent ∨
      (s.phase = .connected ∧ e = .pollCommand ∧
        ∃ c0 q, s.queue = c0 :: q ∧ (step s e).sent = s.sent ++ [c0] ∧
          (step s e).queue = q)) ∧
    (s.phase.isDone = false →
      (step s (.userCommand c)).queue = s.queue ++ [c] ∧
      (step s (.userCommand c)).sent = s.sent) ∧
    (s.phase.isDone = true → step s (.userCommand c) = s) := by
  refine ⟨fun h es => runScript_done s es h, ?_, ?_, ?_⟩
  · obtain ⟨ph, fi, q, ps, al, snt, tr⟩ := s
    cases e with
    | userCommand c2 =>
        left
        cases ph <;> simp [step, Phase.isDone]
    | openOk =>
        left
        cases ph <;> simp [step]
    | openErr m =>
        left
        cases ph <;> cases fi <;> simp [step, Sess.failConnection]
    | pollCommand =>
        cases ph <;> try (left; simp [step]; done)
        cases q with
        | nil => left; rfl
        | cons c0 q2 =>
            right
            exact ⟨rfl, rfl, c0, q2, rfl, by simp [step], by simp [step]⟩
    | wsEvent ev =>
        left
        cases ph <;> try (simp [step]; done)
        rcases ev with we | wm
        · cases we <;> cases fi <;> simp [step, Sess.failConnection]
        · rcases wm with m | dec
          · simp [step]
          · rcases dec with m | re
            · cases fi <;> simp [step, Sess.failConnection]
            · rcases re with d | m
              · obtain ⟨ps2, al2⟩ :
                  PlayerState Pip St Tg Dur Ping × Nat :=
                    PlayerState.update_from_diff ps d al
                simp [step]
              · simp [step]
    | sleepDone =>
        left
        cases ph <;> simp [step]
  · intro h
    constructor <;> simp [step, h]
  · intro h
    exact step_done s _ h

/-- A session whose coroutine future has completed after an orderly
close: terminal `Disconnected`. -/
def sessDone : Sess Nat Nat Nat Nat Nat Nat :=
  ⟨.doneOk, false, [], psA, 2, [],
    [ConnectionState.connecting, ConnectionState.connected,
     ConnectionState.disconnected]⟩

/-- Witness for the amended C5: with the session terminally
`Disconnected`, a command (and any further stimuli) change nothing — in
particular zero commands are transmitted; and a command issued to the
live-but-connected session is buffered at the tail of the channel. -/
theorem command_transmission_policy_witness :
    runScript sessDone [.userCommand 3, .pollCommand, .openOk] = sessDone ∧
    (step sessConn (.userCommand 3)).queue = [3] := by
  have h1 := command_transmission_policy sessDone Env.pollCommand 3
  have h2 := command_transmission_policy sessConn Env.pollCommand 3
  exact ⟨h1.1 rfl _, (h2.2.2.1 rfl).1⟩
